import Mathlib

/-!
Shallow embedding of `trainer/preprocess.py` (article_classifier).

The file models the four per-row stages of the preprocessing pipeline:
`ExtractLabelIdsDoFn`, `ReadImageAndConvertToJpegDoFn` (embedding fetch),
`ExtractTextDataDoFn.get_embedding_and_length`, and `TFExampleFromImageDoFn`.

Python exceptions are modelled with `Except PyError`; the beam metrics
counters are modelled by an explicit `Counters` state threaded through each
stage; the embedding file store is a function from paths to optional byte
contents, and storage side effects are reported as an explicit `FsOp` list.

The constants `BOTTLENECK_TENSOR_SIZE`, `WORD_DIM`, `MAX_WORDS_LENGTH` and
`TOTAL_CATEGORIES_COUNT` are imported by the source from `trainer.model`,
which is not part of the sources; they appear here as explicit parameters
`B`, `WD`, `MW` (as `max_length`) and `TC`.  Likewise `id_to_path` from
`trainer.emb` is an opaque-to-the-pipeline pure function and is passed as a
parameter.
-/

deriving instance DecidableEq for Except

/-- Errors raised by the numpy calls in `_fetch_embedding`.
`bufferSizeNotMultiple` models the `np.frombuffer` ValueError whose message is
"buffer size must be a multiple of element size"; `cannotReshape size shape`
models the reshape ValueError whose message is
"cannot reshape array of size {size} into shape {shape}". -/
inductive NpValueError where
  | bufferSizeNotMultiple : NpValueError
  | cannotReshape (size : Nat) (shape : List Nat) : NpValueError
deriving DecidableEq, Repr

/-- Python exceptions that can escape the modelled code. -/
inductive PyError where
  /-- ValueError from `float(...)` / `int(...)` on an unparseable string. -/
  | valueError (msg : String)
  /-- ValueError raised by a numpy call. -/
  | npValueError (e : NpValueError)
  /-- IndexError from indexing a list out of range. -/
  | indexError
  /-- `raise 'some string'`: under Python 2.6+ this surfaces as a TypeError,
  but either way it aborts the row fatally. -/
  | stringRaised (msg : String)
  /-- Division by zero (would occur if `WORD_DIM` were 0). -/
  | zeroDivisionError
deriving DecidableEq, Repr

/-- A 32-bit little-endian float, kept as its four raw bytes
(value-level float arithmetic is never needed: the pipeline only moves these
values around).  The float32 value 0.0 is the all-zero byte pattern. -/
structure F32 where
  b0 : UInt8
  b1 : UInt8
  b2 : UInt8
  b3 : UInt8
deriving DecidableEq, Repr

/-- The float32 zero (`0.0` has all-zero bytes in IEEE-754). -/
def f32zero : F32 := ⟨0, 0, 0, 0⟩

/-- `np.frombuffer(bytes, dtype=np.float32)` grouping: consecutive 4-byte
little-endian groups.  A trailing group of fewer than 4 bytes never arises
because `frombuffer` raises before this point unless `4 ∣ length`. -/
def bytesToF32s : List UInt8 → List F32
  | b0 :: b1 :: b2 :: b3 :: rest => ⟨b0, b1, b2, b3⟩ :: bytesToF32s rest
  | _ => []

/-- The beam metrics counters of `preprocess.py` that the modelled stages
touch.  `labelsCounters` models the module-level `labels_counters` list. -/
structure Counters where
  errorCount : Nat
  csvRowsCount : Nat
  skippedEmptyLine : Nat
  unlabeledImage : Nat
  unknownLabel : Nat
  emptyImgsCount : Nat
  noTextsCount : Nat
  labelsCounters : List Nat
deriving DecidableEq, Repr

/-- `error_count.inc()`. -/
def incError (c : Counters) : Counters := { c with errorCount := c.errorCount + 1 }

/-- The module-level `labels_counters` list: `for i in range(30)` appends one
counter per iteration, so there are exactly 30 per-label counters. -/
def labels_counters_init : List Nat := List.replicate 30 0

/-- Counters as first created at module load. -/
def initialCounters : Counters :=
  { errorCount := 0, csvRowsCount := 0, skippedEmptyLine := 0, unlabeledImage := 0,
    unknownLabel := 0, emptyImgsCount := 0, noTextsCount := 0,
    labelsCounters := labels_counters_init }

/-- `labels_counters[i].inc()`: IndexError when `i` is out of range. -/
def incLabelCounter (c : Counters) (i : Nat) : Except PyError Counters :=
  if i < c.labelsCounters.length then
    .ok { c with labelsCounters := c.labelsCounters.set i (c.labelsCounters.getD i 0 + 1) }
  else
    .error .indexError

/-- Python list indexing `row[i]`: IndexError when out of range. -/
def pyIndex {α : Type} (row : List α) (i : Nat) : Except PyError α :=
  match row.get? i with
  | some a => .ok a
  | none => .error .indexError

/-- Splitting a character list at every character satisfying `p`, keeping
empty pieces, as `str.split` does on strings (structural recursion, so that
concrete inputs evaluate inside the kernel). -/
def splitChars (p : Char → Bool) : List Char → List (List Char)
  | [] => [[]]
  | ch :: rest =>
    if p ch then [] :: splitChars p rest
    else
      match splitChars p rest with
      | [] => [[ch]]
      | g :: gs => (ch :: g) :: gs

/-- Python `s.strip()`: remove leading and trailing whitespace. -/
def pyStrip (s : String) : String :=
  String.mk (((s.data.dropWhile Char.isWhitespace).reverse.dropWhile
    Char.isWhitespace).reverse)

/-- The numeric value of a digit list (most significant first). -/
def digitsVal (l : List Char) : Nat :=
  l.foldl (fun a ch => a * 10 + (ch.toNat - 48)) 0

/-- A nonempty all-digit list parsed to a natural number. -/
def digitsToNat? (l : List Char) : Option Nat :=
  if l ≠ [] ∧ l.all Char.isDigit then some (digitsVal l) else none

/-- Models Python `int(s)` on decimal literals: optional surrounding
whitespace, optional sign, digits. -/
def pyInt (s : String) : Option Int :=
  let t := (pyStrip s).data
  if t.head? = some ('-') then (digitsToNat? (t.drop 1)).map (fun n => -(n : Int))
  else if t.head? = some ('+') then (digitsToNat? (t.drop 1)).map (fun n => (n : Int))
  else (digitsToNat? t).map (fun n => (n : Int))

/-- `int(s)`, raising ValueError on failure. -/
def pyIntE (s : String) : Except PyError Int :=
  match pyInt s with
  | some v => .ok v
  | none => .error (.valueError ("invalid literal for int() with base 10: " ++ s))

/-- Models Python `float(s)` on plain decimal literals: optional surrounding
whitespace, optional sign, digits with an optional fractional part. -/
def pyFloat (s : String) : Option Rat :=
  let t := (pyStrip s).data
  let (sgn, u) : Rat × List Char :=
    if t.head? = some ('-') then ((-1 : Rat), t.drop 1)
    else if t.head? = some ('+') then ((1 : Rat), t.drop 1)
    else ((1 : Rat), t)
  match splitChars (fun ch => ch == '.') u with
  | [ip] => (digitsToNat? ip).map (fun n => sgn * (n : Rat))
  | [ip, fp] =>
      if (ip.all Char.isDigit ∧ fp.all Char.isDigit) ∧ (ip ≠ [] ∨ fp ≠ []) then
        some (sgn * ((digitsVal ip : Rat) + (digitsVal fp : Rat) / ((10 : Rat) ^ fp.length)))
      else none
  | _ => none

/-- `float(s)`, raising ValueError on failure. -/
def pyFloatE (s : String) : Except PyError Rat :=
  match pyFloat s with
  | some v => .ok v
  | none => .error (.valueError ("could not convert string to float: " ++ s))

/-- Python `s.split()` with no arguments: split on whitespace runs,
producing no empty pieces. -/
def pySplitWs (s : String) : List String :=
  ((splitChars Char.isWhitespace s.data).filter (fun g => g ≠ [])).map
    (fun g => String.mk g)

/-- Modelled from the spec: `ID_COL` comes from `trainer.emb`, which is not in
the source tree; spec §3 fixes the RawRow field order with the id first. -/
def ID_COL : Nat := 0

/-- Modelled from the spec: `LABEL_COL` comes from `trainer.emb`; spec §3 puts
the label second. -/
def LABEL_COL : Nat := 1

/-- Modelled from the spec: `IMAGES_COUNT_COL` comes from `trainer.emb`; spec
§3 puts `images_count` at index 4, matching the literal `row[4]` used for the
same field in `TFExampleFromImageDoFn`. -/
def IMAGES_COUNT_COL : Nat := 4

/-- The `'Parse input'` stage, `csv.reader([line.encode('utf-8')]).next()`,
restricted to lines without CSV quoting (no claim concerns quoted fields):
the empty line yields the empty row (as `csv.reader` does), any other line is
split at commas. -/
def pyCsvParseLine (line : String) : List String :=
  if line = "" then []
  else (splitChars (fun ch => ch == ',') line.data).map (fun g => String.mk g)

/-- The dictionary-building loop
`for i, label in enumerate(all_labels): self.label_to_id_map[label.strip()] = i`,
starting the enumeration at `i`. -/
def buildLabelMapFrom (i : Nat) : List String → List (String × Nat)
  | [] => []
  | l :: rest => (pyStrip l, i) :: buildLabelMapFrom (i + 1) rest

/-- `self.label_to_id_map` as built on first use from `all_labels`. -/
def label_to_id_map (all_labels : List String) : List (String × Nat) :=
  buildLabelMapFrom 0 all_labels

/-- Python dict lookup over the assignment list: the latest assignment to a
key wins. -/
def dictLookup (m : List (String × Nat)) (k : String) : Option Nat :=
  match m with
  | [] => none
  | (k', v) :: rest =>
    match dictLookup rest k with
    | some v' => some v'
    | none => if k' = k then some v else none

/-- `self.label_to_id_map[label.strip()]` as a total lookup (the KeyError case
is `none`). -/
def lookupLabel (all_labels : List String) (s : String) : Option Nat :=
  dictLookup (label_to_id_map all_labels) s

namespace ExtractLabelIdsDoFn

/-- `ExtractLabelIdsDoFn.process`: skips empty rows (counting them), resolves
the trimmed label through the dictionary, counts per-label observations
(IndexError from a label id outside `labels_counters` is re-raised), counts
unknown labels and unlabeled rows, and yields `(row, label_ids)`.
Result `none` means the row was dropped (no yield). -/
def process (all_labels : List String) (row : List String) (c : Counters) :
    Except PyError (Option (List String × List Nat)) × Counters :=
  if row = [] then
    (.ok none, { c with skippedEmptyLine := c.skippedEmptyLine + 1 })
  else
    let c := { c with csvRowsCount := c.csvRowsCount + 1 }
    match pyIndex row LABEL_COL with
    | .error e => (.error e, c)
    | .ok label =>
      match lookupLabel all_labels (pyStrip label) with
      | some label_id =>
        match incLabelCounter c label_id with
        | .error e => (.error e, c)
        | .ok c' => (.ok (some (row, [label_id])), c')
      | none =>
        let c := { c with unknownLabel := c.unknownLabel + 1 }
        let c := { c with unlabeledImage := c.unlabeledImage + 1 }
        (.ok (some (row, [])), c)

end ExtractLabelIdsDoFn

/-- Storage side effects performed by the embedding store adapter. -/
inductive FsOp where
  | existsCheck (path : String)
  | read (path : String)
  | delete (path : String)
deriving DecidableEq, Repr

namespace ReadImageAndConvertToJpegDoFn

/-- `_fetch_embedding` applied to the bytes read from the file, with
`B = BOTTLENECK_TENSOR_SIZE` (`SHAPE = [1, 1, 1, B]`).  Returns the yielded
value (note the source has no `return` statement on the successful-reshape
path, so that path yields `none`), the updated counters, and whether the file
was deleted.  The source matches the exception text with
`e.message.startswith('cannot reshape array of size 0 into')`; the decimal
rendering of the size begins with the digit 0 exactly when the size is 0,
which is what `sizeZeroPrefix` below captures. -/
def sizeZeroPrefix : NpValueError → Bool
  | .cannotReshape 0 _ => true
  | _ => false

/-- See `sizeZeroPrefix` for the message test.  Mirrors `_fetch_embedding`. -/
def fetch_embedding (B : Nat) (bytes : List UInt8) (c : Counters) :
    Except PyError (Option (List F32)) × Counters × Bool :=
  if bytes.length % 4 ≠ 0 then
    (.error (.npValueError .bufferSizeNotMultiple), incError c, false)
  else
    let arr := bytesToF32s bytes
    if arr.length = 1 * 1 * 1 * B then
      (.ok none, c, false)
    else
      let e := NpValueError.cannotReshape arr.length [1, 1, 1, B]
      if sizeZeroPrefix e then
        (.ok none, incError c, true)
      else
        (.error (.npValueError e), incError c, false)

/-- `ReadImageAndConvertToJpegDoFn.process`: parses the id and image count,
skips storage entirely when `images_count < 1`, otherwise checks existence,
reads, and decodes through `fetch_embedding`.  Returns the yielded triple,
counters, the file store after any self-healing delete, and the list of
storage operations performed. -/
def process (B : Nat) (emb_path : String) (id_to_path : Int → String)
    (fs : String → Option (List UInt8)) (row : List String) (label_ids : List Nat)
    (c : Counters) :
    Except PyError (List String × List Nat × Option (List F32)) × Counters ×
      (String → Option (List UInt8)) × List FsOp :=
  match (do
      let idS ← pyIndex row ID_COL
      let id ← pyIntE idS
      let icS ← pyIndex row IMAGES_COUNT_COL
      let ic ← pyIntE icS
      pure (id, ic) : Except PyError (Int × Int)) with
  | .error e => (.error e, c, fs, [])
  | .ok (id, images_count) =>
    if images_count < 1 then
      (.ok (row, label_ids, none), c, fs, [])
    else
      let path := emb_path ++ "/" ++ id_to_path id
      match fs path with
      | none =>
        (.ok (row, label_ids, none),
         { c with emptyImgsCount := c.emptyImgsCount + 1 }, fs, [.existsCheck path])
      | some bytes =>
        match fetch_embedding B bytes c with
        | (res, c', deleted) =>
          let fs' := if deleted then (fun p => if p = path then none else fs p) else fs
          let ops := [FsOp.existsCheck path, FsOp.read path] ++
            (if deleted then [FsOp.delete path] else [])
          match res with
          | .error e => (.error e, c', fs', ops)
          | .ok emb => (.ok (row, label_ids, emb), c', fs', ops)

end ReadImageAndConvertToJpegDoFn

namespace ExtractTextDataDoFn

/-- `ExtractTextDataDoFn.get_embedding_and_length` with `WD = WORD_DIM` and
`max_length = MAX_WORDS_LENGTH` at the call site.  Python 2 `/` on ints is
floor division; `length` is never negative, so `Nat` division matches. -/
def get_embedding_and_length (WD : Nat) (max_length : Nat) (inline : String) :
    Except PyError (List Rat × Nat) :=
  match (if inline = "" then Except.ok ([] : List Rat)
         else (pySplitWs inline).mapM pyFloatE) with
  | .error e => .error e
  | .ok embedding =>
    if WD = 0 then .error .zeroDivisionError
    else
      let length := embedding.length / WD
      if length > max_length then
        .ok (embedding.take (WD * max_length), max_length)
      else
        .ok (embedding ++ List.replicate ((max_length - length) * WD) 0, length)

end ExtractTextDataDoFn

/-- The text-derived features passed from `ExtractTextDataDoFn` to the record
assembler. -/
structure TextData where
  text_embedding : List Rat
  text_length : Nat
  extra_embedding : List Rat
deriving DecidableEq, Repr

/-- The string fields of the row that `TFExampleFromImageDoFn.process`
re-parses, after parsing. -/
structure RecordFields where
  id : String
  category_id : Int
  price : Int
  images_count : Int
  recent_articles_count : Int
  blocks_inline : String
  title_length : Int
  content_length : Int
  user_name : String
deriving DecidableEq, Repr

/-- The assembled output record (`tf.train.Example` feature map). -/
structure FeatureRecord where
  id : String
  embedding : List F32
  text_embedding : List Rat
  text_length : Nat
  extra_embedding : List Rat
  category_id : Int
  price : Int
  images_count : Int
  recent_articles_count : Int
  title_length : Int
  content_length : Int
  blocks_inline : String
  user_name : String
  label : List Nat
deriving DecidableEq, Repr

namespace TFExampleFromImageDoFn

/-- The field accesses and `int(...)` parses at the top of
`TFExampleFromImageDoFn.process`, in source order. -/
def rowFields (row : List String) : Except PyError RecordFields := do
  let id ← pyIndex row ID_COL
  let category_id ← pyIntE (← pyIndex row 2)
  let price ← pyIntE (← pyIndex row 3)
  let images_count ← pyIntE (← pyIndex row 4)
  let recent_articles_count ← pyIntE (← pyIndex row 7)
  let blocks_inline ← pyIndex row 8
  let title_length ← pyIntE (← pyIndex row 9)
  let content_length ← pyIntE (← pyIndex row 10)
  let user_name ← pyIndex row 11
  pure { id := id, category_id := category_id, price := price,
         images_count := images_count,
         recent_articles_count := recent_articles_count,
         blocks_inline := blocks_inline, title_length := title_length,
         content_length := content_length, user_name := user_name }

/-- `TFExampleFromImageDoFn.process` with `TC = TOTAL_CATEGORIES_COUNT` and
`B = BOTTLENECK_TENSOR_SIZE`: validates the category id
(`if category_id < 1 or category_id - 1 > TOTAL_CATEGORIES_COUNT`), replaces
an absent embedding by `self._empty_embedding` (`[0.0] * B`), flattens a
present embedding (`ravel().tolist()`), and assembles the record. -/
def process (TC B : Nat) (row : List String) (label_ids : List Nat)
    (embedding : Option (List F32)) (data : TextData) (c : Counters) :
    Except PyError FeatureRecord × Counters :=
  match rowFields row with
  | .error e => (.error e, c)
  | .ok flds =>
    if flds.category_id < 1 ∨ flds.category_id - 1 > (TC : Int) then
      (.error (.stringRaised ("invalid catgory_id: " ++ toString flds.category_id)),
       incError c)
    else
      let emb := match embedding with
        | none => List.replicate B f32zero
        | some e => e
      (.ok { id := flds.id, embedding := emb,
             text_embedding := data.text_embedding,
             text_length := data.text_length,
             extra_embedding := data.extra_embedding,
             category_id := flds.category_id, price := flds.price,
             images_count := flds.images_count,
             recent_articles_count := flds.recent_articles_count,
             title_length := flds.title_length,
             content_length := flds.content_length,
             blocks_inline := flds.blocks_inline,
             user_name := flds.user_name, label := label_ids }, c)

end TFExampleFromImageDoFn

/-- The first two pipeline stages on one raw text line: `'Parse input'`
followed by `'Extract label ids'`. -/
def pipelineParseAndLabel (all_labels : List String) (line : String) (c : Counters) :
    Except PyError (Option (List String × List Nat)) × Counters :=
  ExtractLabelIdsDoFn.process all_labels (pyCsvParseLine line) c

/-! Helper lemmas. -/

theorem bytesToF32s_length : ∀ l : List UInt8, (bytesToF32s l).length = l.length / 4
  | [] => by simp [bytesToF32s]
  | [_] => by simp [bytesToF32s]
  | [_, _] => by simp [bytesToF32s]
  | [_, _, _] => by simp [bytesToF32s]
  | a :: b :: d :: e :: rest => by
      have ih := bytesToF32s_length rest
      simp only [bytesToF32s, List.length_cons, ih]
      omega

theorem mapM_pyFloatE_ok : ∀ ts : List String, (∀ t ∈ ts, (pyFloat t).isSome) →
    ∃ l : List Rat, ts.mapM pyFloatE = Except.ok l ∧ l.length = ts.length := by
  intro ts
  induction ts with
  | nil => intro _; exact ⟨[], rfl, rfl⟩
  | cons a ts ih =>
    intro h
    obtain ⟨q, hq⟩ := Option.isSome_iff_exists.mp (h a (List.mem_cons_self a ts))
    obtain ⟨l, hl, hlen⟩ := ih (fun t ht => h t (List.mem_cons_of_mem a ht))
    refine ⟨q :: l, ?_, by simp [hlen]⟩
    have h1 : pyFloatE a = Except.ok q := by simp [pyFloatE, hq]
    rw [List.mapM_cons, h1, hl]
    rfl

theorem dictLookup_buildFrom_none (s : String) :
    ∀ (l : List String) (i0 : Nat), (∀ x ∈ l, pyStrip x ≠ s) →
      dictLookup (buildLabelMapFrom i0 l) s = none := by
  intro l
  induction l with
  | nil => intro i0 _; rfl
  | cons a rest ih =>
    intro i0 h
    have htail := ih (i0 + 1) (fun x hx => h x (List.mem_cons_of_mem a hx))
    simp only [buildLabelMapFrom, dictLookup, htail]
    rw [if_neg (h a (List.mem_cons_self a rest))]

theorem dictLookup_buildFrom_get :
    ∀ (l : List String), l.Pairwise (fun a b => pyStrip a ≠ pyStrip b) →
      ∀ (i0 i : Nat) (hi : i < l.length),
        dictLookup (buildLabelMapFrom i0 l) (pyStrip (l.get ⟨i, hi⟩)) = some (i0 + i) := by
  intro l
  induction l with
  | nil => intro _ i0 i hi; exact absurd hi (by simp)
  | cons a rest ih =>
    intro hp i0 i hi
    rw [List.pairwise_cons] at hp
    match i with
    | 0 =>
      have hnone : dictLookup (buildLabelMapFrom (i0 + 1) rest) (pyStrip a) = none :=
        dictLookup_buildFrom_none (pyStrip a) rest (i0 + 1)
          (fun x hx => fun hcontra => (hp.1 x hx) hcontra.symm)
      simp only [buildLabelMapFrom, List.get, dictLookup, hnone, if_pos rfl, Nat.add_zero]
      simp
    | j + 1 =>
      have hj : j < rest.length := by simpa using hi
      have htail := ih hp.2 (i0 + 1) j hj
      simp only [buildLabelMapFrom, List.get, dictLookup, htail]
      congr 1
      omega

theorem lookupLabel_get (l : List String) (hp : l.Pairwise (fun a b => pyStrip a ≠ pyStrip b))
    (i : Nat) (hi : i < l.length) :
    lookupLabel l (pyStrip (l.get ⟨i, hi⟩)) = some i := by
  have := dictLookup_buildFrom_get l hp 0 i hi
  simpa [lookupLabel, label_to_id_map] using this

theorem gel_eq (WD MW : Nat) (inline : String) (hWD : 0 < WD)
    (hp : ∀ t ∈ pySplitWs inline, (pyFloat t).isSome) :
    ∃ toks : List Rat, toks.length = (pySplitWs inline).length ∧
      ExtractTextDataDoFn.get_embedding_and_length WD MW inline =
        (if toks.length / WD > MW then Except.ok (toks.take (WD * MW), MW)
         else Except.ok (toks ++ List.replicate ((MW - toks.length / WD) * WD) 0,
                         toks.length / WD)) := by
  have hWD0 : WD ≠ 0 := Nat.pos_iff_ne_zero.mp hWD
  by_cases h0 : inline = ""
  · subst h0
    refine ⟨[], rfl, ?_⟩
    simp only [ExtractTextDataDoFn.get_embedding_and_length, if_pos rfl, hWD0, if_false]
    try rfl
  · obtain ⟨l, hl, hlen⟩ := mapM_pyFloatE_ok (pySplitWs inline) hp
    refine ⟨l, hlen, ?_⟩
    simp only [ExtractTextDataDoFn.get_embedding_and_length, if_neg h0, hl, hWD0, if_false]
    try rfl

/-- C2 (amended): for every token string of parseable floats whose token
count is a multiple of `WORD_DIM`, the text embedding list returned by
`get_embedding_and_length` has exactly `MAX_WORDS_LENGTH * WORD_DIM`
elements. -/
theorem get_embedding_and_length_size (WD MW : Nat) (inline : String) (hWD : 0 < WD)
    (hp : ∀ t ∈ pySplitWs inline, (pyFloat t).isSome)
    (hdvd : WD ∣ (pySplitWs inline).length) :
    (ExtractTextDataDoFn.get_embedding_and_length WD MW inline).map (fun p => p.1.length) =
      Except.ok (MW * WD) := by
  obtain ⟨toks, hlen, heq⟩ := gel_eq WD MW inline hWD hp
  rw [heq]
  have hdvd' : WD ∣ toks.length := by rw [hlen]; exact hdvd
  have h2 : toks.length / WD * WD = toks.length := Nat.div_mul_cancel hdvd'
  by_cases hgt : toks.length / WD > MW
  · rw [if_pos hgt]
    have h1 : WD * MW ≤ toks.length := by
      calc WD * MW = MW * WD := Nat.mul_comm WD MW
        _ ≤ toks.length / WD * WD := Nat.mul_le_mul_right WD (Nat.le_of_lt hgt)
        _ = toks.length := h2
    simp only [Except.map, List.length_take]
    rw [Nat.min_eq_left h1, Nat.mul_comm]
  · rw [if_neg hgt]
    push_neg at hgt
    have hle : toks.length ≤ MW * WD := by
      calc toks.length = toks.length / WD * WD := h2.symm
        _ ≤ MW * WD := Nat.mul_le_mul_right WD hgt
    simp only [Except.map, List.length_append, List.length_replicate]
    rw [Nat.sub_mul, h2]
    exact congrArg Except.ok (Nat.add_sub_cancel' hle)

/-- C2 (counterexample): with `WORD_DIM = 2` and `MAX_WORDS_LENGTH = 3`, the
parseable one-token string yields a list of 7 elements, not
`MAX_WORDS_LENGTH * WORD_DIM = 6`. -/
theorem get_embedding_and_length_size_counterexample :
    (ExtractTextDataDoFn.get_embedding_and_length 2 3 "1.0").map (fun p => p.1.length) =
      Except.ok 7 ∧ (7 : Nat) ≠ 3 * 2 := by
  constructor
  · decide
  · decide

/-- C2 witness. -/
theorem get_embedding_and_length_size_witness :
    (ExtractTextDataDoFn.get_embedding_and_length 2 3 "1.0 2.5 3 4").map
      (fun p => p.1.length) = Except.ok 6 :=
  get_embedding_and_length_size 2 3 "1.0 2.5 3 4" (by decide) (by decide) (by decide)

/-- C7: for every token string of parseable floats, the effective text length
equals `min (floor (token_count / WORD_DIM)) MAX_WORDS_LENGTH` (hence lies in
`[0, MAX_WORDS_LENGTH]`); exactly `WORD_DIM * MAX_WORDS_LENGTH` tokens give
effective length `MAX_WORDS_LENGTH` with nothing appended (the output list is
exactly the token list), and one token fewer gives effective length
`MAX_WORDS_LENGTH - 1` with one full zero row (`WORD_DIM` zeros) appended. -/
theorem get_embedding_and_length_effective (WD MW : Nat) (inline : String) (hWD : 0 < WD)
    (hp : ∀ t ∈ pySplitWs inline, (pyFloat t).isSome) :
    ((ExtractTextDataDoFn.get_embedding_and_length WD MW inline).map (fun p => p.2) =
      Except.ok (min ((pySplitWs inline).length / WD) MW))
    ∧ ((pySplitWs inline).length = WD * MW →
        (ExtractTextDataDoFn.get_embedding_and_length WD MW inline).map
          (fun p => (p.1.length, p.2)) = Except.ok (WD * MW, MW))
    ∧ (0 < MW → (pySplitWs inline).length = WD * MW - 1 →
        (ExtractTextDataDoFn.get_embedding_and_length WD MW inline).map
          (fun p => (p.1.length, p.2, p.1.drop (WD * MW - 1))) =
          Except.ok (WD * MW - 1 + WD, MW - 1, List.replicate WD (0 : Rat))) := by
  obtain ⟨toks, hlen, heq⟩ := gel_eq WD MW inline hWD hp
  refine ⟨?_, ?_, ?_⟩
  · rw [heq, ← hlen]
    by_cases hgt : toks.length / WD > MW
    · rw [if_pos hgt]
      simp only [Except.map]
      rw [Nat.min_eq_right (Nat.le_of_lt hgt)]
    · rw [if_neg hgt]
      push_neg at hgt
      simp only [Except.map]
      rw [Nat.min_eq_left hgt]
  · intro hcnt
    rw [heq]
    have hq : toks.length / WD = MW := by
      rw [hlen, hcnt]; exact Nat.mul_div_cancel_left MW hWD
    rw [if_neg (by rw [hq]; exact Nat.lt_irrefl MW)]
    simp only [Except.map, hq, Nat.sub_self, Nat.zero_mul, List.replicate_zero,
      List.append_nil]
    rw [hlen, hcnt]
  · intro hMW hcnt
    rw [heq]
    obtain ⟨m, rfl⟩ : ∃ m, MW = m + 1 := ⟨MW - 1, (Nat.succ_pred_eq_of_pos hMW).symm⟩
    have e1 : WD * (m + 1) = WD * m + WD := by ring
    have e2 : WD * (m + 1) - 1 = WD - 1 + WD * m := by
      rw [e1, Nat.add_sub_assoc hWD]
      exact Nat.add_comm _ _
    have hq : toks.length / WD = m := by
      rw [hlen, hcnt, e2, Nat.add_mul_div_left _ _ hWD,
        Nat.div_eq_of_lt (Nat.sub_lt hWD Nat.one_pos), Nat.zero_add]
    rw [if_neg (by rw [hq]; omega)]
    have hpad : (m + 1 - toks.length / WD) * WD = WD := by rw [hq]; simp
    have htoks : WD * (m + 1) - 1 = toks.length := by rw [hlen, hcnt]
    have hdrop : (toks ++ List.replicate WD (0 : Rat)).drop (WD * (m + 1) - 1) =
        List.replicate WD 0 := by
      rw [htoks]
      exact List.drop_left toks _
    simp only [Except.map, hpad, hq, List.length_append, List.length_replicate, hdrop]
    rw [← htoks]
    simp
    exact hdrop

/-- C7 witness. -/
theorem get_embedding_and_length_effective_witness :
    (ExtractTextDataDoFn.get_embedding_and_length 2 3 "1 2 3 4 5").map (fun p => p.2) =
      Except.ok (min ((pySplitWs "1 2 3 4 5").length / 2) 3) :=
  (get_embedding_and_length_effective 2 3 "1 2 3 4 5" (by decide) (by decide)).1

/-- C1: contrary to the claim, `_fetch_embedding` returns the absence
sentinel (`None`) even when the payload is present and well-formed (its byte
length is exactly `4 * BOTTLENECK_TENSOR_SIZE`, so decode and reshape
succeed): the source has no `return` statement on the success path.  The
decoded vector is therefore never returned and the assembled record gets the
all-zero embedding instead of the file's contents. -/
theorem fetch_embedding_wellformed_returns_none (B : Nat) (bytes : List UInt8)
    (c : Counters) (h : bytes.length = 4 * B) :
    ReadImageAndConvertToJpegDoFn.fetch_embedding B bytes c = (.ok none, c, false) := by
  have hB : (bytesToF32s bytes).length = 1 * 1 * 1 * B := by
    rw [bytesToF32s_length, h, Nat.mul_div_cancel_left B (by norm_num : 0 < 4)]
    ring
  simp only [ReadImageAndConvertToJpegDoFn.fetch_embedding]
  rw [if_neg (by omega : ¬ bytes.length % 4 ≠ 0), if_pos hB]

/-- C1 witness. -/
theorem fetch_embedding_wellformed_returns_none_witness :
    ReadImageAndConvertToJpegDoFn.fetch_embedding 2 (List.replicate 8 0) initialCounters =
      (.ok none, initialCounters, false) :=
  fetch_embedding_wellformed_returns_none 2 (List.replicate 8 0) initialCounters (by decide)

/-- C3 (counterexample): with `TOTAL_CATEGORIES_COUNT = 5`, a row whose
category id is 6 violates `1 ≤ category_id ≤ TOTAL_CATEGORIES_COUNT`, yet the
record assembler emits a record and does not touch the error counter. -/
theorem process_category_boundary_counterexample :
    ((TFExampleFromImageDoFn.process 5 2
        ["10", "lab", "6", "100", "1", "0", "0", "0", "blk", "5", "7", "user"]
        [] none ⟨[], 0, []⟩ initialCounters).1.isOk = true)
    ∧ ((TFExampleFromImageDoFn.process 5 2
        ["10", "lab", "6", "100", "1", "0", "0", "0", "blk", "5", "7", "user"]
        [] none ⟨[], 0, []⟩ initialCounters).2.errorCount = initialCounters.errorCount)
    ∧ ¬ (1 ≤ (6 : Int) ∧ (6 : Int) ≤ 5) :=
  ⟨by decide, by decide, by decide⟩

/-- C3 (amended): the record assembler raises a fatal error and increments
the error counter if and only if the row's category id violates
`1 ≤ category_id ≤ TOTAL_CATEGORIES_COUNT + 1` (the source condition is
`category_id < 1 or category_id - 1 > TOTAL_CATEGORIES_COUNT`); every
category id in that wider range produces a record. -/
theorem process_category_validation (TC B : Nat) (row : List String) (ids : List Nat)
    (emb : Option (List F32)) (d : TextData) (c : Counters) (flds : RecordFields)
    (h : TFExampleFromImageDoFn.rowFields row = .ok flds) :
    ((TFExampleFromImageDoFn.process TC B row ids emb d c).1.isOk ↔
      (1 ≤ flds.category_id ∧ flds.category_id ≤ (TC : Int) + 1))
    ∧ ((TFExampleFromImageDoFn.process TC B row ids emb d c).2.errorCount =
        if 1 ≤ flds.category_id ∧ flds.category_id ≤ (TC : Int) + 1 then c.errorCount
        else c.errorCount + 1) := by
  simp only [TFExampleFromImageDoFn.process, h]
  by_cases hc : flds.category_id < 1 ∨ flds.category_id - 1 > (TC : Int)
  · have hn : ¬ (1 ≤ flds.category_id ∧ flds.category_id ≤ (TC : Int) + 1) := by omega
    rw [if_pos hc]
    constructor
    · simp [Except.isOk, Except.toBool, hn]
    · rw [if_neg hn]
      simp [incError]
  · have hy : 1 ≤ flds.category_id ∧ flds.category_id ≤ (TC : Int) + 1 := by
      push_neg at hc
      omega
    rw [if_neg hc]
    constructor
    · simp [Except.isOk, Except.toBool, hy]
    · rw [if_pos hy]

/-- C3 witness. -/
theorem process_category_validation_witness :
    (TFExampleFromImageDoFn.process 5 2
      ["10", "lab", "4", "100", "1", "0", "0", "0", "blk", "5", "7", "user"]
      [] none ⟨[], 0, []⟩ initialCounters).1.isOk = true := by
  have h := process_category_validation 5 2
    ["10", "lab", "4", "100", "1", "0", "0", "0", "blk", "5", "7", "user"]
    [] none ⟨[], 0, []⟩ initialCounters ⟨"10", 4, 100, 1, 0, "blk", 5, 7, "user"⟩ (by decide)
  exact h.1.mpr (by decide)

/-- C4 (counterexample): the dictionary build never raises: with an empty
label dictionary, `ExtractLabelIdsDoFn.process` succeeds (the label is merely
unknown) instead of failing with a ConfigError — no such error exists in the
code. -/
theorem empty_dict_no_failure_counterexample :
    ExtractLabelIdsDoFn.process [] ["10", "somelabel"] initialCounters =
      (.ok (some (["10", "somelabel"], [])),
       { initialCounters with csvRowsCount := 1, unknownLabel := 1, unlabeledImage := 1 }) := by
  decide

/-- C4 (amended): building the label-to-id mapping from an empty label
dictionary yields the empty mapping and does not fail (rows then proceed with
their labels unknown); for a dictionary whose trimmed entries are distinct,
every entry is whitespace-trimmed and assigned its 0-based position in list
order as its id. -/
theorem label_dictionary_build (row : List String) (c : Counters)
    (labels : List String) (i : Nat)
    (hrow : row ≠ []) (hlen : LABEL_COL < row.length)
    (hp : labels.Pairwise (fun a b => pyStrip a ≠ pyStrip b)) (hi : i < labels.length) :
    ((ExtractLabelIdsDoFn.process [] row c).1 = .ok (some (row, [])))
    ∧ (label_to_id_map [] = [])
    ∧ (lookupLabel labels (pyStrip (labels.get ⟨i, hi⟩)) = some i) := by
  refine ⟨?_, rfl, lookupLabel_get labels hp i hi⟩
  have hg : row.get? LABEL_COL = some (row.get ⟨LABEL_COL, hlen⟩) := List.get?_eq_get hlen
  simp only [ExtractLabelIdsDoFn.process, if_neg hrow, pyIndex, hg]
  simp [lookupLabel, label_to_id_map, buildLabelMapFrom, dictLookup]

/-- C4 witness. -/
theorem label_dictionary_build_witness :
    (((ExtractLabelIdsDoFn.process [] ["10", "x"] initialCounters).1 =
        .ok (some (["10", "x"], [])))
      ∧ (label_to_id_map [] = [])
      ∧ (lookupLabel ["a", " b "] (pyStrip (["a", " b "].get ⟨1, by decide⟩)) = some 1)) :=
  label_dictionary_build ["10", "x"] initialCounters ["a", " b "] 1
    (by decide) (by decide) (by decide) (by decide)

/-- C5: an empty input line parses to the empty row, which the label stage
drops without error, incrementing the skipped-empty-line counter exactly once
and leaving every other counter unchanged; processing of other lines is
unaffected (the stage returns normally). -/
theorem pipeline_empty_line (all_labels : List String) (c : Counters) :
    pipelineParseAndLabel all_labels "" c =
      (.ok none, { c with skippedEmptyLine := c.skippedEmptyLine + 1 }) := rfl

/-- C8: a non-empty row whose trimmed label is not in the dictionary is
emitted with an empty label-id list; the unknown-label and unlabeled-item
counters each increment exactly once (the csv-row counter also increments, as
for every non-empty row), and the row proceeds rather than being dropped. -/
theorem process_unknown_label (all_labels : List String) (row : List String)
    (c : Counters) (label : String)
    (hrow : row ≠ []) (hl : row.get? LABEL_COL = some label)
    (hlu : lookupLabel all_labels (pyStrip label) = none) :
    ExtractLabelIdsDoFn.process all_labels row c =
      (.ok (some (row, [])),
       { c with csvRowsCount := c.csvRowsCount + 1, unknownLabel := c.unknownLabel + 1, unlabeledImage := c.unlabeledImage + 1 }) := by
  simp only [ExtractLabelIdsDoFn.process, if_neg hrow, pyIndex, hl, hlu]

/-- C8 witness. -/
theorem process_unknown_label_witness :
    ExtractLabelIdsDoFn.process ["labela"] ["10", "unknownlabel"] initialCounters =
      (.ok (some (["10", "unknownlabel"], [])),
       { initialCounters with csvRowsCount := 1, unknownLabel := 1, unlabeledImage := 1 }) :=
  process_unknown_label ["labela"] ["10", "unknownlabel"] initialCounters
    "unknownlabel" (by decide) (by decide) (by decide)

/-- C9: when the declared image count is less than 1, the embedding stage
returns the absence sentinel and performs no storage operation at all (the
operation list is empty and the file store is untouched), and the row
proceeds with unchanged counters. -/
theorem readimage_no_storage (B : Nat) (emb_path : String) (id_to_path : Int → String)
    (fs : String → Option (List UInt8)) (row : List String) (ids : List Nat) (c : Counters)
    (idS icS : String) (idv icv : Int)
    (h0 : row.get? ID_COL = some idS) (h1 : pyInt idS = some idv)
    (h2 : row.get? IMAGES_COUNT_COL = some icS) (h3 : pyInt icS = some icv)
    (h4 : icv < 1) :
    ReadImageAndConvertToJpegDoFn.process B emb_path id_to_path fs row ids c =
      (.ok (row, ids, none), c, fs, []) := by
  simp only [ReadImageAndConvertToJpegDoFn.process, pyIndex, pyIntE, bind, Except.bind,
    pure, Except.pure, h0, h1, h2, h3]
  rw [if_pos h4]

/-- C9 witness. -/
theorem readimage_no_storage_witness :
    ReadImageAndConvertToJpegDoFn.process 2 "data/image_embeddings" (fun i => toString i)
      (fun _ => none) ["7", "lab", "1", "9", "0"] [] initialCounters =
      (.ok (["7", "lab", "1", "9", "0"], [], none), initialCounters, (fun _ => none), []) :=
  readimage_no_storage 2 "data/image_embeddings" (fun i => toString i) (fun _ => none)
    ["7", "lab", "1", "9", "0"] [] initialCounters "7" "0" 7 0
    (by decide) (by decide) (by decide) (by decide) (by decide)

theorem fetch_embedding_empty_aux (B : Nat) (c : Counters) (hB : 0 < B) :
    ReadImageAndConvertToJpegDoFn.fetch_embedding B [] c = (.ok none, incError c, true) := by
  simp only [ReadImageAndConvertToJpegDoFn.fetch_embedding]
  rw [if_neg (by simp : ¬ ([] : List UInt8).length % 4 ≠ 0)]
  rw [if_neg (by simp [bytesToF32s]; omega : ¬ (bytesToF32s []).length = 1 * 1 * 1 * B)]
  rfl

/-- C6: a present but zero-byte embedding payload makes the adapter increment
the error counter, delete the file, and return the absence sentinel (shown
both for `_fetch_embedding` alone and through `process`, where the store
afterwards maps the path to nothing and the operations are exactly existence
check, read, delete); the row still assembles into a record whose image
embedding is all-zero.  A non-empty payload whose byte length does not match
the expected shape instead propagates the decode error fatally (no delete),
after incrementing the error counter. -/
theorem embedding_corruption_selfheal
    (B TC : Nat) (bytes : List UInt8) (c c' : Counters)
    (emb_path : String) (id_to_path : Int → String) (fs : String → Option (List UInt8))
    (row : List String) (ids : List Nat) (d : TextData) (flds : RecordFields)
    (idS icS : String) (idv icv : Int) (hB : 0 < B) :
    (ReadImageAndConvertToJpegDoFn.fetch_embedding B [] c = (.ok none, incError c, true))
    ∧ (bytes ≠ [] → bytes.length ≠ 4 * B →
        (ReadImageAndConvertToJpegDoFn.fetch_embedding B bytes c).1.isOk = false
        ∧ (ReadImageAndConvertToJpegDoFn.fetch_embedding B bytes c).2.1 = incError c
        ∧ (ReadImageAndConvertToJpegDoFn.fetch_embedding B bytes c).2.2 = false)
    ∧ (row.get? ID_COL = some idS → pyInt idS = some idv →
        row.get? IMAGES_COUNT_COL = some icS → pyInt icS = some icv → 1 ≤ icv →
        fs (emb_path ++ "/" ++ id_to_path idv) = some [] →
        ReadImageAndConvertToJpegDoFn.process B emb_path id_to_path fs row ids c =
          (.ok (row, ids, none), incError c,
           (fun p => if p = emb_path ++ "/" ++ id_to_path idv then none else fs p),
           [.existsCheck (emb_path ++ "/" ++ id_to_path idv),
            .read (emb_path ++ "/" ++ id_to_path idv),
            .delete (emb_path ++ "/" ++ id_to_path idv)]))
    ∧ (TFExampleFromImageDoFn.rowFields row = .ok flds →
        1 ≤ flds.category_id → flds.category_id ≤ (TC : Int) + 1 →
        (TFExampleFromImageDoFn.process TC B row ids none d c').1.map
          (fun r => r.embedding) = .ok (List.replicate B f32zero)) := by
  refine ⟨fetch_embedding_empty_aux B c hB, ?_, ?_, ?_⟩
  · intro hne hlen4
    by_cases h4 : bytes.length % 4 = 0
    · have harr : (bytesToF32s bytes).length = bytes.length / 4 := bytesToF32s_length bytes
      have hne0 : bytes.length ≠ 0 := fun h => hne (List.length_eq_zero.mp h)
      have hpos : bytes.length / 4 ≠ 0 := by omega
      have hneB : ¬ (bytesToF32s bytes).length = 1 * 1 * 1 * B := by
        rw [harr]
        simp only [Nat.one_mul]
        intro hcon
        exact hlen4 (by omega)
      have hsz : ReadImageAndConvertToJpegDoFn.sizeZeroPrefix
          (.cannotReshape (bytesToF32s bytes).length [1, 1, 1, B]) = false := by
        rw [harr]
        obtain ⟨k, hk⟩ := Nat.exists_eq_succ_of_ne_zero hpos
        rw [hk]
        rfl
      simp only [ReadImageAndConvertToJpegDoFn.fetch_embedding]
      rw [if_neg (by omega : ¬ bytes.length % 4 ≠ 0), if_neg hneB,
        if_neg (by simp [hsz])]
      exact ⟨rfl, rfl, rfl⟩
    · simp only [ReadImageAndConvertToJpegDoFn.fetch_embedding]
      rw [if_pos h4]
      exact ⟨rfl, rfl, rfl⟩
  · intro h0 h1 h2 h3 hic hfs
    simp only [ReadImageAndConvertToJpegDoFn.process, pyIndex, pyIntE, bind, Except.bind,
      pure, Except.pure, h0, h1, h2, h3]
    rw [if_neg (by omega : ¬ icv < 1)]
    simp only [hfs]
    simp [fetch_embedding_empty_aux B c hB]
  · intro hrf hc1 hc2
    simp only [TFExampleFromImageDoFn.process, hrf]
    rw [if_neg (by omega : ¬ (flds.category_id < 1 ∨ flds.category_id - 1 > (TC : Int)))]
    simp [Except.map]

/-- C6 witness. -/
theorem embedding_corruption_selfheal_witness :
    ReadImageAndConvertToJpegDoFn.fetch_embedding 2 [] initialCounters =
      (.ok none, incError initialCounters, true) :=
  (embedding_corruption_selfheal 2 5 [0] initialCounters initialCounters
    "data/image_embeddings" (fun _ => "7")
    (fun p => if p = "data/image_embeddings/7" then some [] else none)
    ["7", "lab", "3", "9", "1", "0", "0", "0", "blk", "5", "7", "user"] [] ⟨[], 0, []⟩
    ⟨"7", 3, 9, 1, 0, "blk", 5, 7, "user"⟩ "7" "1" 7 1 (by decide)).1


/-- C10: the per-label counter array is hard-coded to exactly 30 entries;
with the counters in that state, resolving any label whose assigned index is
30 or greater makes the label stage re-raise an IndexError (only the csv-row
counter having been touched, so the row is aborted rather than counted and
skipped), and every label id carried by a row the stage does emit is strictly
less than 30. -/
theorem labels_counters_bound :
    (labels_counters_init.length = 30)
    ∧ (∀ (all_labels row : List String) (c : Counters) (label : String) (label_id : Nat),
        row ≠ [] → row.get? LABEL_COL = some label →
        lookupLabel all_labels (pyStrip label) = some label_id →
        c.labelsCounters.length = 30 → 30 ≤ label_id →
        ExtractLabelIdsDoFn.process all_labels row c =
          (.error .indexError, { c with csvRowsCount := c.csvRowsCount + 1 }))
    ∧ (∀ (all_labels row : List String) (c : Counters) (row2 : List String)
        (ids : List Nat) (c' : Counters),
        c.labelsCounters.length = 30 →
        ExtractLabelIdsDoFn.process all_labels row c = (.ok (some (row2, ids)), c') →
        ∀ i ∈ ids, i < 30) := by
  refine ⟨rfl, ?_, ?_⟩
  · intro all_labels row c label label_id hrow hl hlu hlen hge
    simp only [ExtractLabelIdsDoFn.process, if_neg hrow, pyIndex, hl, hlu, incLabelCounter]
    rw [if_neg (by simp only [hlen]; omega : ¬ label_id < c.labelsCounters.length)]
  · intro all_labels row c row2 ids c' hlen heq i hi
    simp only [ExtractLabelIdsDoFn.process, pyIndex, incLabelCounter] at heq
    split at heq
    · simp at heq
    · split at heq
      · simp at heq
      · split at heq
        · split at heq
          · simp at heq
          · rename_i hif
            simp only [Prod.mk.injEq, Except.ok.injEq, Option.some.injEq] at heq
            obtain ⟨⟨-, hids⟩, -⟩ := heq
            rw [← hids] at hi
            simp at hi
            subst hi
            rw [← hlen]
            by_contra hcon
            rw [if_neg hcon] at hif
            exact Except.noConfusion hif
        · simp only [Prod.mk.injEq, Except.ok.injEq, Option.some.injEq] at heq
          obtain ⟨⟨-, hids⟩, -⟩ := heq
          rw [← hids] at hi
          simp at hi

/-- C10 witness. -/
theorem labels_counters_bound_witness :
    ExtractLabelIdsDoFn.process
      ["l0", "l1", "l2", "l3", "l4", "l5", "l6", "l7", "l8", "l9",
       "l10", "l11", "l12", "l13", "l14", "l15", "l16", "l17", "l18", "l19",
       "l20", "l21", "l22", "l23", "l24", "l25", "l26", "l27", "l28", "l29",
       "l30"]
      ["7", "l30"] initialCounters =
      (.error .indexError, { initialCounters with csvRowsCount := 1 }) :=
  labels_counters_bound.2.1
    ["l0", "l1", "l2", "l3", "l4", "l5", "l6", "l7", "l8", "l9",
     "l10", "l11", "l12", "l13", "l14", "l15", "l16", "l17", "l18", "l19",
     "l20", "l21", "l22", "l23", "l24", "l25", "l26", "l27", "l28", "l29",
     "l30"]
    ["7", "l30"] initialCounters "l30" 30 (by decide) (by decide) (by decide)
    (by decide) (by decide)
